import Mathlib

/-
Shallow embedding of the core of the student-information-management-system
repository:

  src/utils/validator.py        (class Validator)
  src/models/student.py         (class Student)
  src/managers/data_manager.py  (class DataManager)
  src/managers/student_manager.py (class StudentManager)

Conventions of the embedding:
- Python values that flow through the validators and through JSON files are
  modelled by the inductive type `JValue` (JSON numbers are modelled as
  integers; floating point values are out of scope and never produced by the
  repository itself).
- Python dicts are modelled as insertion-ordered association lists
  `List (String × _)`; `dinsert` models `d[k] = v` (replace in place, append
  if new), `dremove` models `del d[k]`, `dlookup` models `d.get(k)`.
- Raised exceptions are modelled by `Except SMError`; operations that mutate
  an object in place additionally return the mutated object, so that a
  partially mutated state left behind by an exception stays observable.
- File contents are modelled by `FileContent`: a zero-length file, a file
  holding the JSON text of a `JValue`, or other (non-JSON) text.  `json.dump`
  followed by `json.load` is modelled as the identity on the stored `JValue`;
  disk writes themselves never fail in the model (no I/O fault injection).
- Python `re.match` with a pattern anchored by `$` also accepts one trailing
  newline (the documented behaviour of `$` in the Python `re` module); this
  is modelled by `matchesFullPy`.
- Error-message strings follow the messages in the source; messages that the
  source composes from `str(e)` of a foreign exception are approximated by
  fixed strings, since no claim inspects them.
-/

/-- Python/JSON values as they flow through validators and data files. -/
inductive JValue where
  | jnull
  | jbool (b : Bool)
  | jint (n : Int)
  | jstr (s : String)
  | jarr (elems : List JValue)
  | jobj (fields : List (String × JValue))

/-- The exception taxonomy of src/utils/exceptions.py, plus `typeError` for
Python-level TypeError/AttributeError that the repository code does not
define itself but can raise or swallow. -/
inductive SMError where
  | dataValidation (field msg : String)
  | studentNotFound (sid : String)
  | studentExists (sid : String)
  | ioError (msg path op : String)
  | emptyData (msg : String)
  | backupRestore (msg op : String)
  | invalidOperation (msg : String)
  | operationFailed (msg : String)
  | typeError (msg : String)
deriving Repr, DecidableEq

/-- Ordered-dict insert: `d[k] = v`.  An existing key keeps its position and
gets the new value; a new key is appended. -/
def dinsert {α : Type} (k : String) (v : α) : List (String × α) → List (String × α)
  | [] => [(k, v)]
  | (k2, v2) :: rest => if k2 = k then (k, v) :: rest else (k2, v2) :: dinsert k v rest

/-- Ordered-dict delete: `del d[k]` (the caller checks presence first). -/
def dremove {α : Type} (k : String) (l : List (String × α)) : List (String × α) :=
  l.filter (fun kv => kv.1 ≠ k)

/-- Ordered-dict lookup: `d.get(k)`. -/
def dlookup {α : Type} (k : String) : List (String × α) → Option α
  | [] => none
  | (k2, v) :: rest => if k2 = k then some v else dlookup k rest

/-- The whitespace characters stripped by `str.strip()` and matched by `\s`
(the ASCII portion, which covers every string the repository handles). -/
def pySpace (c : Char) : Bool :=
  c == ' ' || c == '\t' || c == '\n' || c == '\r' || c == '\x0b' || c == '\x0c'

/-- Python `str.strip()`. -/
def pyStrip (s : String) : String :=
  String.mk (((s.toList.dropWhile pySpace).reverse.dropWhile pySpace).reverse)

/-- ASCII letter, the `[a-zA-Z]` character class. -/
def asciiAlpha (c : Char) : Bool :=
  decide (('a' ≤ c ∧ c ≤ 'z') ∨ ('A' ≤ c ∧ c ≤ 'Z'))

/-- ASCII digit, the `[0-9]` character class. -/
def asciiDigit (c : Char) : Bool :=
  decide ('0' ≤ c ∧ c ≤ '9')

/-- Han character, the CJK range used by the name and class patterns. -/
def hanChar (c : Char) : Bool :=
  decide (0x4e00 ≤ c.toNat ∧ c.toNat ≤ 0x9fa5)

/-- Python `re.match` against a fully anchored pattern `^...$`: `$` also
matches just before one newline at the very end of the string (dropping the
final character when it is a newline). -/
def matchesFullPy (core : String → Bool) (s : String) : Bool :=
  core s || (s.toList.getLast? == some '\n' && core (String.mk s.toList.dropLast))

/-- Errors of Python `int(x)`: `ValueError` for a malformed string,
`TypeError` for an argument that is not a string or a number. -/
inductive PyNumErr where
  | valueError
  | typeError
deriving Repr, DecidableEq

/-- Digit run continuation as accepted by `int(str)`: digits with single
underscores allowed between digits (Python 3 numeric literals). -/
def pyDigitsRest : List Char → Bool
  | [] => true
  | '_' :: c :: rest => asciiDigit c && pyDigitsRest rest
  | ['_'] => false
  | c :: rest => asciiDigit c && pyDigitsRest rest

/-- Nonempty digit run, first character a digit. -/
def pyDigits : List Char → Bool
  | [] => false
  | c :: rest => asciiDigit c && pyDigitsRest rest

/-- Numeric value of a digit run, skipping underscores. -/
def pyDigitsVal (l : List Char) : Nat :=
  l.foldl (fun acc c => if c = '_' then acc else acc * 10 + (c.toNat - '0'.toNat)) 0

/-- Python `int(s)` for a string: surrounding whitespace, an optional sign,
then a digit run. -/
def pyIntOfString (s : String) : Option Int :=
  match (pyStrip s).toList with
  | '+' :: rest => if pyDigits rest then some (Int.ofNat (pyDigitsVal rest)) else none
  | '-' :: rest => if pyDigits rest then some (-(Int.ofNat (pyDigitsVal rest))) else none
  | rest => if pyDigits rest then some (Int.ofNat (pyDigitsVal rest)) else none

/-- Python `int(x)` on an arbitrary value. -/
def pyInt : JValue → Except PyNumErr Int
  | .jint n => .ok n
  | .jbool b => .ok (if b then 1 else 0)
  | .jstr s =>
    match pyIntOfString s with
    | some n => .ok n
    | none => .error .valueError
  | _ => .error .typeError

namespace Validator

/-- Validator.validate_student_id: a string, non-blank, whole length 6-20,
matching `^[0-9]+$` (Python `$` also accepts one trailing newline). -/
def validate_student_id : JValue → Bool × String
  | .jstr s =>
    if pyStrip s = "" then (false, "学号不能为空")
    else if s.length < 6 ∨ 20 < s.length then (false, "学号长度必须在6-20位之间")
    else if matchesFullPy (fun t => t != "" && t.toList.all asciiDigit) s then (true, "")
    else (false, "学号格式不正确，应为数字且长度在6-20位之间")
  | _ => (false, "学号必须是字符串类型")

/-- Deterministic matcher for `^[a-zA-Z]+(\s[a-zA-Z]+)*$`; the flag records
whether the next character must start a new word.  The letter and whitespace
classes are disjoint, so the greedy regex equals this matcher. -/
def engName : List Char → Bool → Bool
  | [], needLetter => !needLetter
  | c :: rest, true => asciiAlpha c && engName rest false
  | c :: rest, false =>
    if asciiAlpha c then engName rest false
    else pySpace c && engName rest true

/-- The English-name pattern on a whole string. -/
def engNamePattern (s : String) : Bool :=
  engName s.toList true

/-- Validator.validate_name: stripped, 2-10 characters, then all-Han or the
English word pattern (the stripped string cannot end in a newline, so the
Python `$` newline allowance is vacuous here). -/
def validate_name : JValue → Bool × String
  | .jstr s0 =>
    let s := pyStrip s0
    if s = "" then (false, "姓名不能为空")
    else if s.length < 2 ∨ 10 < s.length then (false, "姓名长度必须在2-10个字符之间")
    else if (2 ≤ s.length && s.length ≤ 10 && s.toList.all hanChar) || engNamePattern s then
      (true, "")
    else (false, "姓名格式不正确，只支持中文或英文姓名")
  | _ => (false, "姓名必须是字符串类型")

/-- Validator.validate_gender: exactly the two literal tokens. -/
def validate_gender : JValue → Bool × String
  | .jstr s => if s = "男" ∨ s = "女" then (true, "") else (false, "性别必须为男或女")
  | _ => (false, "性别必须为男或女")

/-- Validator.validate_age: `int(age)` must succeed and lie in 15-49. -/
def validate_age (v : JValue) : Bool × String :=
  match pyInt v with
  | .error _ => (false, "年龄必须是整数")
  | .ok n => if n < 15 ∨ 50 ≤ n then (false, "年龄必须是15-49之间的整数") else (true, "")

/-- The class-name character class of letters, Han characters, digits,
whitespace, hyphen and underscore. -/
def classChar (c : Char) : Bool :=
  hanChar c || asciiAlpha c || asciiDigit c || pySpace c || c == '-' || c == '_'

/-- Validator.validate_class_name: stripped, non-empty, at most 20
characters, all characters from `classChar`. -/
def validate_class_name : JValue → Bool × String
  | .jstr s0 =>
    let s := pyStrip s0
    if s = "" then (false, "班级名称不能为空")
    else if 20 < s.length then (false, "班级名称长度不能超过20个字符")
    else if s != "" && s.toList.all classChar then (true, "")
    else (false, "班级名称包含非法字符")
  | _ => (false, "班级名称必须是字符串类型")

/-- The phone pattern on an already stripped string: a 1, a digit 3-9, then
nine more digits. -/
def phonePattern (s : String) : Bool :=
  match s.toList with
  | '1' :: c :: rest => decide ('3' ≤ c ∧ c ≤ '9') && rest.length == 9 && rest.all asciiDigit
  | _ => false

/-- The character class of the email local part. -/
def emailLocalChar (c : Char) : Bool :=
  asciiAlpha c || asciiDigit c || c == '.' || c == '_' || c == '%' || c == '+' || c == '-'

/-- The character class of the email domain part. -/
def emailDomChar (c : Char) : Bool :=
  asciiAlpha c || asciiDigit c || c == '.' || c == '-'

/-- Domain side of the email pattern: one-or-more domain characters, a dot,
then a final label of 2+ letters; since the final label may not contain a
dot, a match must split at the last dot. -/
def emailDomain (d : String) : Bool :=
  let parts := d.splitOn "."
  match parts.getLast? with
  | none => false
  | some tld =>
    2 ≤ parts.length &&
    (String.intercalate "." parts.dropLast) != "" &&
    ((String.intercalate "." parts.dropLast).toList.all emailDomChar) &&
    2 ≤ tld.length && tld.toList.all asciiAlpha

/-- The email pattern: local part, `@`, domain.  Neither character class
contains `@`, so a match splits at the unique `@`. -/
def emailPattern (s : String) : Bool :=
  match s.splitOn "@" with
  | [loc, dom] => loc != "" && loc.toList.all emailLocalChar && emailDomain dom
  | _ => false

/-- Validator.validate_contact: stripped, non-empty, at most 50 characters,
then the phone or the email pattern (again the stripped string cannot end in
a newline). -/
def validate_contact : JValue → Bool × String
  | .jstr s0 =>
    let s := pyStrip s0
    if s = "" then (false, "联系方式不能为空")
    else if 50 < s.length then (false, "联系方式长度不能超过50个字符")
    else if phonePattern s || emailPattern s then (true, "")
    else (false, "联系方式格式不正确，应为手机号或邮箱")
  | _ => (false, "联系方式必须是字符串类型")

/-- Key presence in a JSON object. -/
def hasKey (fields : List (String × JValue)) (k : String) : Bool :=
  (dlookup k fields).isSome

/-- Value of a key with default `None`, Python `data.get(field)`. -/
def jget (fields : List (String × JValue)) (k : String) : JValue :=
  match dlookup k fields with
  | some v => v
  | none => .jnull

/-- Validator.validate_student_data: all six required keys present, then each
field validator in the fixed order id, name, gender, age, class, contact. -/
def validate_student_data : JValue → Bool × String
  | .jobj fields =>
    if ¬ hasKey fields "student_id" then (false, "缺少必需字段: student_id")
    else if ¬ hasKey fields "name" then (false, "缺少必需字段: name")
    else if ¬ hasKey fields "gender" then (false, "缺少必需字段: gender")
    else if ¬ hasKey fields "age" then (false, "缺少必需字段: age")
    else if ¬ hasKey fields "class_name" then (false, "缺少必需字段: class_name")
    else if ¬ hasKey fields "contact" then (false, "缺少必需字段: contact")
    else if ¬ (validate_student_id (jget fields "student_id")).1 then
      (false, "student_id验证失败")
    else if ¬ (validate_name (jget fields "name")).1 then (false, "name验证失败")
    else if ¬ (validate_gender (jget fields "gender")).1 then (false, "gender验证失败")
    else if ¬ (validate_age (jget fields "age")).1 then (false, "age验证失败")
    else if ¬ (validate_class_name (jget fields "class_name")).1 then
      (false, "class_name验证失败")
    else if ¬ (validate_contact (jget fields "contact")).1 then (false, "contact验证失败")
    else (true, "")
  | _ => (false, "学生数据必须是字典类型")

end Validator

/-- The validated Student record of src/models/student.py; string fields
other than the id are stored stripped, the id is stored as passed. -/
structure Student where
  student_id : String
  name : String
  gender : String
  age : Int
  class_name : String
  contact : String
deriving Repr, DecidableEq

namespace Student

/-- Student._validate_student_id: validate and return the raw string. -/
def sValidateStudentId (v : JValue) : Except SMError String :=
  match v with
  | .jstr s =>
    match Validator.validate_student_id (.jstr s) with
    | (true, _) => .ok s
    | (false, m) => .error (.dataValidation "student_id" m)
  | _ => .error (.dataValidation "student_id" "学号必须是字符串类型")

/-- Student._validate_name: validate and return the stripped string. -/
def sValidateName (v : JValue) : Except SMError String :=
  match v with
  | .jstr s =>
    match Validator.validate_name (.jstr s) with
    | (true, _) => .ok (pyStrip s)
    | (false, m) => .error (.dataValidation "name" m)
  | _ => .error (.dataValidation "name" "姓名必须是字符串类型")

/-- Student._validate_gender: validate and return the value unchanged. -/
def sValidateGender (v : JValue) : Except SMError String :=
  match v with
  | .jstr s =>
    match Validator.validate_gender (.jstr s) with
    | (true, _) => .ok s
    | (false, m) => .error (.dataValidation "gender" m)
  | _ => .error (.dataValidation "gender" "性别必须为男或女")

/-- Student._validate_age: validate and return `int(age)` (which cannot fail
once the validator has accepted the value). -/
def sValidateAge (v : JValue) : Except SMError Int :=
  match Validator.validate_age v with
  | (true, _) =>
    match pyInt v with
    | .ok n => .ok n
    | .error _ => .error (.dataValidation "age" "年龄必须是整数")
  | (false, m) => .error (.dataValidation "age" m)

/-- Student._validate_class_name: validate and return the stripped string. -/
def sValidateClassName (v : JValue) : Except SMError String :=
  match v with
  | .jstr s =>
    match Validator.validate_class_name (.jstr s) with
    | (true, _) => .ok (pyStrip s)
    | (false, m) => .error (.dataValidation "class_name" m)
  | _ => .error (.dataValidation "class_name" "班级名称必须是字符串类型")

/-- Student._validate_contact: validate and return the stripped string. -/
def sValidateContact (v : JValue) : Except SMError String :=
  match v with
  | .jstr s =>
    match Validator.validate_contact (.jstr s) with
    | (true, _) => .ok (pyStrip s)
    | (false, m) => .error (.dataValidation "contact" m)
  | _ => .error (.dataValidation "contact" "联系方式格式不正确，应为手机号或邮箱")

/-- The Student constructor: the six validators run in declaration order and
the first failure aborts the construction. -/
def mkStudent (sid nm g ag cls ct : JValue) : Except SMError Student := do
  let i ← sValidateStudentId sid
  let n ← sValidateName nm
  let ge ← sValidateGender g
  let a ← sValidateAge ag
  let c ← sValidateClassName cls
  let co ← sValidateContact ct
  return ⟨i, n, ge, a, c, co⟩

/-- Student.to_dict. -/
def toDict (s : Student) : JValue :=
  .jobj [("student_id", .jstr s.student_id), ("name", .jstr s.name),
         ("gender", .jstr s.gender), ("age", .jint s.age),
         ("class_name", .jstr s.class_name), ("contact", .jstr s.contact)]

/-- Student.from_dict: `data.get` of the six keys, then full construction
validation; a non-dict argument has no `.get` and raises AttributeError. -/
def fromDict : JValue → Except SMError Student
  | .jobj fields =>
    mkStudent (Validator.jget fields "student_id") (Validator.jget fields "name")
      (Validator.jget fields "gender") (Validator.jget fields "age")
      (Validator.jget fields "class_name") (Validator.jget fields "contact")
  | _ => .error (.typeError "AttributeError: get")

/-- The property setter for `name` (re-validates before committing). -/
def setName (st : Student) (v : JValue) : Except SMError Student :=
  (sValidateName v).map (fun n => { st with name := n })

/-- The property setter for `gender`. -/
def setGender (st : Student) (v : JValue) : Except SMError Student :=
  (sValidateGender v).map (fun g => { st with gender := g })

/-- The property setter for `age`. -/
def setAge (st : Student) (v : JValue) : Except SMError Student :=
  (sValidateAge v).map (fun a => { st with age := a })

/-- The property setter for `class_name`. -/
def setClassName (st : Student) (v : JValue) : Except SMError Student :=
  (sValidateClassName v).map (fun c => { st with class_name := c })

/-- The property setter for `contact`. -/
def setContact (st : Student) (v : JValue) : Except SMError Student :=
  (sValidateContact v).map (fun c => { st with contact := c })

/-- `setattr(self, key, value)` dispatch over the five mutable fields. -/
def setField (st : Student) (f : String) (v : JValue) : Except SMError Student :=
  if f = "name" then setName st v
  else if f = "gender" then setGender st v
  else if f = "age" then setAge st v
  else if f = "class_name" then setClassName st v
  else if f = "contact" then setContact st v
  else .error (.dataValidation f ("学生对象不包含字段: " ++ f))

/-- The fields Student.update_info is willing to update. -/
def allowedFields : List String := ["name", "gender", "age", "class_name", "contact"]

/-- The loop body of Student.update_info.  The student is mutated in place
field by field, so on an exception the fields already set keep their new
values; the returned student is the object state when the call ends.  The
`hasattr` test of the source is always true for the allowed fields and has no
else-branch here. -/
def updateInfoAux (st : Student) (hasChanges : Bool) :
    List (String × JValue) → Student × Except SMError Bool
  | [] => (st, .ok hasChanges)
  | (key, value) :: rest =>
    if key = "student_id" then (st, .error (.invalidOperation "学号不允许修改"))
    else if allowedFields.contains key then
      match value with
      | .jnull => updateInfoAux st hasChanges rest
      | v =>
        match setField st key v with
        | .ok st2 => updateInfoAux st2 true rest
        | .error e => (st, .error e)
    else (st, .error (.dataValidation key ("不允许更新字段: " ++ key)))

/-- Student.update_info on a kwargs list (Python keyword arguments preserve
call order and have pairwise distinct keys). -/
def updateInfo (st : Student) (kwargs : List (String × JValue)) :
    Student × Except SMError Bool :=
  updateInfoAux st false kwargs

end Student

/-- Content of one file: zero-length, the JSON text of a value, or other
text that fails JSON parsing. -/
inductive FileContent where
  | emptyFile
  | jsonFile (v : JValue)
  | badFile (s : String)

/-- The file system plus bookkeeping: `saveCount` counts calls of
DataManager.save_data, `clock` drives the backup-file timestamp names. -/
structure FileSys where
  files : List (String × FileContent)
  saveCount : Nat
  clock : Nat

/-- The data file path of the default DataManager. -/
def dataFilePath : String := "data/students.json"

/-- File lookup by path. -/
def fsGet (fs : FileSys) (p : String) : Option FileContent :=
  dlookup p fs.files

namespace DataManager

/-- DataManager.save_data: replace the data file with the JSON dump of the
whole map (writes never fail in the model). -/
def save_data (fs : FileSys) (data : List (String × JValue)) : FileSys :=
  { fs with files := dinsert dataFilePath (.jsonFile (.jobj data)) fs.files,
            saveCount := fs.saveCount + 1 }

/-- DataManager.load_data: empty dict when the file is absent, the parsed
value when the file holds JSON, DataIOError on undecodable content. -/
def load_data (fs : FileSys) : Except SMError JValue :=
  match fsGet fs dataFilePath with
  | none => .ok (.jobj [])
  | some (.jsonFile v) => .ok v
  | some .emptyFile => .error (.ioError "JSON解析错误" dataFilePath "读取")
  | some (.badFile _) => .error (.ioError "JSON解析错误" dataFilePath "读取")

/-- Backup file name produced at tick `clock` inside the default backup
directory (second-granularity timestamp modelled by the tick). -/
def backupPathOf (clock : Nat) : String :=
  "data/backups/students_backup_" ++ toString clock ++ ".json"

/-- DataManager.backup_data: EmptyDataError when the data file is absent or
zero-length, otherwise a timestamped copy (copying never fails in the
model, so no BackupRestoreError arises here). -/
def backup_data (fs : FileSys) : FileSys × Except SMError String :=
  match fsGet fs dataFilePath with
  | none => (fs, .error (.emptyData "没有数据文件可供备份"))
  | some .emptyFile => (fs, .error (.emptyData "数据文件为空，无法备份"))
  | some c =>
    let p := backupPathOf fs.clock
    ({ fs with files := dinsert p c fs.files, clock := fs.clock + 1 }, .ok p)

/-- DataManager.restore_data: EmptyDataError when the backup file is absent
or zero-length; then `backup_data()` runs on the current data file and any
exception from it propagates unwrapped (the except clause re-raises
BackupRestoreError and EmptyDataError); then the backup content (re-read
after the automatic backup) overwrites the data file. -/
def restore_data (fs : FileSys) (backupFile : String) : FileSys × Except SMError Bool :=
  match fsGet fs backupFile with
  | none => (fs, .error (.emptyData ("备份文件不存在: " ++ backupFile)))
  | some .emptyFile => (fs, .error (.emptyData ("备份文件为空: " ++ backupFile)))
  | some _ =>
    match backup_data fs with
    | (fs2, .error e) => (fs2, .error e)
    | (fs2, .ok _) =>
      match fsGet fs2 backupFile with
      | some c2 =>
        ({ fs2 with files := dinsert dataFilePath c2 fs2.files }, .ok true)
      | none => (fs2, .error (.backupRestore "备份文件不存在" "恢复"))

/-- DataManager.import_data: EmptyDataError when the import file is absent
or zero-length, DataIOError when it does not parse or its top level is not
an object; with `overwrite` the imported map replaces the stored dataset,
otherwise `current.update(imported)` is saved; the return value is
the map as loaded from the file, not the merged result.  A DataIOError of the
inner `load_data` propagates unchanged; a non-dict current dataset makes
`.update` raise, wrapped as DataIOError on the import path. -/
def data_import (fs : FileSys) (p : String) (overwrite : Bool) :
    FileSys × Except SMError JValue :=
  match fsGet fs p with
  | none => (fs, .error (.emptyData ("导入文件不存在: " ++ p)))
  | some .emptyFile => (fs, .error (.emptyData ("导入文件为空: " ++ p)))
  | some (.badFile _) => (fs, .error (.ioError "JSON解析错误" p "导入"))
  | some (.jsonFile v) =>
    match v with
    | .jobj imported =>
      if overwrite then (save_data fs imported, .ok (.jobj imported))
      else
        match load_data fs with
        | .ok (.jobj current) =>
          (save_data fs (imported.foldl (fun acc kv => dinsert kv.1 kv.2 acc) current),
           .ok (.jobj imported))
        | .ok _ => (fs, .error (.ioError "AttributeError: update" p "导入"))
        | .error e => (fs, .error e)
    | _ => (fs, .error (.ioError "导入数据格式错误，必须是字典格式" p "导入"))

end DataManager

/-- Rendering of an error for wrapping into another message, Python
`str(e)` with the error-code prefix of StudentSystemError.__str__. -/
def errStr : SMError → String
  | .dataValidation field msg =>
    "[VALIDATION_ERROR] " ++ (if field = "" then msg else field ++ "：" ++ msg)
  | .studentNotFound sid => "[STUDENT_NOT_FOUND] 学号为 " ++ sid ++ " 的学生不存在"
  | .studentExists sid => "[STUDENT_ALREADY_EXISTS] 学号为 " ++ sid ++ " 的学生已存在"
  | .ioError msg path op => "[DATA_IO_ERROR] " ++ op ++ "操作失败：" ++ msg ++ " (文件：" ++ path ++ ")"
  | .emptyData msg => "[EMPTY_DATA] " ++ msg
  | .backupRestore msg op => "[BACKUP_RESTORE_ERROR] " ++ op ++ "失败：" ++ msg
  | .invalidOperation msg => "[INVALID_OPERATION] " ++ msg
  | .operationFailed msg => "[OPERATION_FAILED] " ++ msg
  | .typeError msg => msg

namespace StudentManager

/-- The manager state: the in-memory id-to-Student map and the file system
owned by its DataManager. -/
structure SMState where
  students : List (String × Student)
  fs : FileSys

/-- StudentManager._validate_student_id: the pattern of letters, digits and
underscores, length 3-20 (note: weaker than the Validator rule of 6-20
digits), with the Python trailing-newline allowance of `$`. -/
def manager_validate_student_id (s : String) : Bool :=
  matchesFullPy
    (fun t => (3 ≤ t.length && t.length ≤ 20) &&
      t.toList.all (fun c => asciiAlpha c || asciiDigit c || c == '_')) s

/-- The per-record loop of StudentManager._load_students: each record that
passes full construction validation is inserted into the accumulating map,
each record that fails is logged and skipped. -/
def mergeRecords (students : List (String × Student)) (data : List (String × JValue)) :
    List (String × Student) :=
  data.foldl (fun acc kv =>
    match Student.fromDict kv.2 with
    | .ok st => dinsert kv.1 st acc
    | .error _ => acc) students

/-- StudentManager._load_students: load the data file and merge each record
that passes full construction validation into the GIVEN map (the source
never clears `self._students` before the loop); records that fail
validation are logged and skipped; a load failure or a non-dict top level
is wrapped as DataIOError. -/
def load_students (students : List (String × Student)) (fs : FileSys) :
    Except SMError (List (String × Student)) :=
  match DataManager.load_data fs with
  | .ok (.jobj data) => .ok (mergeRecords students data)
  | .ok _ => .error (.ioError "AttributeError: items" "加载学生数据" "加载")
  | .error e => .error (.ioError (errStr e) "加载学生数据" "加载")

/-- StudentManager._save_students: serialize the whole map and save it
(serialization of validated students cannot fail, and writes succeed in the
model). -/
def save_students (sm : SMState) : SMState :=
  let payload := sm.students.map (fun kv => (kv.1, Student.toDict kv.2))
  { sm with fs := DataManager.save_data sm.fs payload }

/-- StudentManager.add_student: id-format check, existence check, `int(age)`
conversion (ValueError becomes DataValidationError, TypeError falls through
to the catch-all OperationFailedError), construction, insert, save.  In the
model the save cannot fail, so the remove-on-failed-save branch is dead. -/
def add_student (sm : SMState) (sid : String) (nm g ag cls ct : JValue) :
    SMState × Except SMError (Bool × String) :=
  if ¬ manager_validate_student_id sid then
    (sm, .error (.dataValidation "" "学号格式不正确，应为字母、数字和下划线组合，长度3-20个字符"))
  else if (dlookup sid sm.students).isSome then
    (sm, .error (.studentExists sid))
  else
    match pyInt ag with
    | .error .valueError => (sm, .error (.dataValidation "" "invalid literal for int"))
    | .error .typeError => (sm, .error (.operationFailed "添加学生失败: TypeError"))
    | .ok n =>
      match Student.mkStudent (.jstr sid) nm g (.jint n) cls ct with
      | .error e => (sm, .error e)
      | .ok st =>
        let sm2 : SMState := { sm with students := dinsert sid st sm.students }
        (save_students sm2, .ok (true, "学生 " ++ st.name ++ " 添加成功"))

/-- StudentManager.get_student_by_id: an id failing the manager format check
raises StudentNotFoundError (not a validation error), as does an absent
id. -/
def get_student_by_id (sm : SMState) (sid : String) : Except SMError Student :=
  if ¬ manager_validate_student_id sid then .error (.studentNotFound sid)
  else
    match dlookup sid sm.students with
    | some st => .ok st
    | none => .error (.studentNotFound sid)

/-- The bookkeeping loop at the start of StudentManager.update_student: it
only pre-checks the `age` value (`int` conversion and a 0-150 range) and
otherwise just collects field names; its result is never consulted. -/
def pre_check : List (String × JValue) → Except SMError Unit
  | [] => .ok ()
  | (field, value) :: rest =>
    if ¬ Student.allowedFields.contains field then pre_check rest
    else
      match value with
      | .jnull => pre_check rest
      | v =>
        if field = "age" then
          match pyInt v with
          | .error .valueError => .error (.dataValidation "" "年龄必须是整数")
          | .error .typeError => .error (.typeError "int() argument")
          | .ok n =>
            if n < 0 ∨ 150 < n then .error (.dataValidation "" "年龄必须在0-150之间")
            else pre_check rest
        else pre_check rest

/-- The except clauses of StudentManager.update_student: DataValidationError
passes through, everything else is wrapped as OperationFailedError. -/
def wrapUpdateError : SMError → SMError
  | .dataValidation f m => .dataValidation f m
  | e => .operationFailed ("更新学生操作失败：更新学生信息失败: " ++ errStr e)

/-- StudentManager.update_student.  Python binds the first parameter to the
name `student_id`, so a keyword argument of that name is rejected by the
call itself with a TypeError before the body runs.  The body: id-format
check, lookup via get_student_by_id (StudentNotFoundError propagates), the
age pre-check, then Student.update_info on the student object held in the
map (so a partial in-place mutation stays in the map when update_info
raises), then save only when something changed. -/
def update_student (sm : SMState) (sid : String) (kwargs : List (String × JValue)) :
    SMState × Except SMError (Bool × String) :=
  if (kwargs.map Prod.fst).contains "student_id" then
    (sm, .error (.typeError "update_student got multiple values for argument student_id"))
  else if ¬ manager_validate_student_id sid then
    (sm, .error (.dataValidation "" "学号格式不正确"))
  else
    match get_student_by_id sm sid with
    | .error e => (sm, .error e)
    | .ok st =>
      match pre_check kwargs with
      | .error e => (sm, .error (wrapUpdateError e))
      | .ok _ =>
        let r := Student.updateInfo st kwargs
        let sm2 : SMState := { sm with students := dinsert sid r.1 sm.students }
        match r.2 with
        | .error e => (sm2, .error (wrapUpdateError e))
        | .ok true => (save_students sm2, .ok (true, "学生 " ++ st.name ++ " 信息更新成功"))
        | .ok false => (sm2, .ok (false, "没有需要更新的信息"))

/-- StudentManager.delete_student: id-format check (DataValidationError),
existence check (StudentNotFoundError), removal, save. -/
def delete_student (sm : SMState) (sid : String) : SMState × Except SMError (Bool × String) :=
  if ¬ manager_validate_student_id sid then
    (sm, .error (.dataValidation "" "学号格式不正确，无法执行删除操作"))
  else
    match dlookup sid sm.students with
    | none => (sm, .error (.studentNotFound sid))
    | some st =>
      let sm2 : SMState := { sm with students := dremove sid sm.students }
      (save_students sm2, .ok (true, "学生 " ++ st.name ++ " 删除成功"))

/-- The deletion loop of StudentManager.delete_students_by_ids: `del` on a
key that has already been removed raises KeyError. -/
def delete_loop (students : List (String × Student)) :
    List String → List (String × Student) × Bool
  | [] => (students, true)
  | i :: rest =>
    match dlookup i students with
    | some _ => delete_loop (dremove i students) rest
    | none => (students, false)

/-- The success message of delete_students_by_ids. -/
def batchMessage (n : Nat) (notFound invalidIds : List String) : String :=
  "成功删除 " ++ toString n ++ " 名学生" ++
  (if notFound.isEmpty then "" else "。未找到的学号: " ++ String.intercalate ", " notFound) ++
  (if invalidIds.isEmpty then "" else "。无效的学号格式: " ++ String.intercalate ", " invalidIds)

/-- StudentManager.delete_students_by_ids: one counting pass over the input
partitions it into invalid / not-found / deletable occurrences against the
unmodified map; zero deletable occurrences short-circuits with (0, message)
and no save; otherwise the deletion list is computed against the still
unmodified map and deleted one by one - a deletable id occurring twice hits
a KeyError on its second occurrence, which the catch-all turns into
OperationFailedError after the map was already mutated and before any
save. -/
def delete_students_by_ids (sm : SMState) (ids : List String) :
    SMState × Except SMError (Nat × String) :=
  if (ids.filter (fun i => manager_validate_student_id i &&
       (dlookup i sm.students).isSome)).length = 0 then
    (sm, .ok (0, "没有找到可删除的学生"))
  else
    match delete_loop sm.students
        (ids.filter (fun i => manager_validate_student_id i &&
          (dlookup i sm.students).isSome)) with
    | (sts, false) =>
      (⟨sts, sm.fs⟩, .error (.operationFailed "批量删除学生失败: KeyError"))
    | (sts, true) =>
      (save_students ⟨sts, sm.fs⟩,
       .ok ((ids.filter (fun i => manager_validate_student_id i &&
              (dlookup i sm.students).isSome)).length,
            batchMessage
              (ids.filter (fun i => manager_validate_student_id i &&
                (dlookup i sm.students).isSome)).length
              (ids.filter (fun i => manager_validate_student_id i &&
                (dlookup i sm.students).isNone))
              (ids.filter (fun i => ¬ manager_validate_student_id i))))

/-- StudentManager.import_data: delegate to DataManager, then reload (which
MERGES into the existing map, see load_students); on an exception the
handler reloads again - deterministically with the same outcome - and
re-raises. -/
def manager_import (sm : SMState) (p : String) (overwrite : Bool) :
    SMState × Except SMError JValue :=
  let r := DataManager.data_import sm.fs p overwrite
  match r.2 with
  | .ok imported =>
    match load_students sm.students r.1 with
    | .ok sts => ({ students := sts, fs := r.1 }, .ok imported)
    | .error e2 => ({ sm with fs := r.1 }, .error e2)
  | .error e =>
    match load_students sm.students r.1 with
    | .ok sts => ({ students := sts, fs := r.1 }, .error e)
    | .error e2 => ({ sm with fs := r.1 }, .error e2)

end StudentManager

/-- The id rule of the spec, the regex of 6-20 digits read plainly. -/
def specIdPattern (s : String) : Bool :=
  (6 ≤ s.length && s.length ≤ 20) && s.toList.all asciiDigit

/-- What Validator.validate_student_id actually accepts for a string: whole
length 6-20 and the digit run, where Python `$` also allows the digit run to
be followed by one final newline (counted by the length check). -/
def specIdAccept (s : String) : Bool :=
  (6 ≤ s.length && s.length ≤ 20) &&
    matchesFullPy (fun t => t != "" && t.toList.all asciiDigit) s

/-- A valid record used by the concrete scenarios. -/
def stZhang : Student := ⟨"100001", "Zhang San", "男", 20, "CS-1", "13800000000"⟩

/-- Its raw serialized form. -/
def recZhang : JValue := Student.toDict stZhang

/-- A second valid record. -/
def stLi : Student := ⟨"100002", "Li Si", "女", 21, "CS-2", "13900000000"⟩

/-- Its raw serialized form. -/
def recLi : JValue := Student.toDict stLi

/-- A manager with no students and no files. -/
def smEmpty : StudentManager.SMState := ⟨[], ⟨[], 0, 0⟩⟩

/-- A manager holding stZhang in memory and on disk. -/
def smZhang : StudentManager.SMState :=
  ⟨[("100001", stZhang)], ⟨[(dataFilePath, .jsonFile (.jobj [("100001", recZhang)]))], 0, 0⟩⟩

/-- smZhang with an import file containing only stLi. -/
def smZhangImp : StudentManager.SMState :=
  ⟨[("100001", stZhang)],
   ⟨[(dataFilePath, .jsonFile (.jobj [("100001", recZhang)])),
     ("import.json", .jsonFile (.jobj [("100002", recLi)]))], 0, 0⟩⟩

/-- A file system with a non-empty backup file and no data file. -/
def fsBackupOnly : FileSys := ⟨[("backup.json", .jsonFile (.jobj []))], 0, 0⟩

/-- An on-disk dataset with one valid and one invalid record. -/
def dataMixed : List (String × JValue) := [("100001", recZhang), ("bad", .jobj [])]

/-- A file system whose data file holds dataMixed. -/
def fsMixed : FileSys := ⟨[(dataFilePath, .jsonFile (.jobj dataMixed))], 0, 0⟩

theorem dlookup_dinsert_self {α : Type} (k : String) (v : α) (l : List (String × α)) :
    dlookup k (dinsert k v l) = some v := by
  induction l with
  | nil => simp [dinsert, dlookup]
  | cons hd tl ih =>
    obtain ⟨k2, v2⟩ := hd
    by_cases h : k2 = k
    · simp [dinsert, dlookup, h]
    · simp [dinsert, dlookup, h, ih]

theorem dlookup_dinsert_ne {α : Type} (k k2 : String) (v : α) (l : List (String × α))
    (h : k2 ≠ k) : dlookup k (dinsert k2 v l) = dlookup k l := by
  induction l with
  | nil => simp [dinsert, dlookup, h]
  | cons hd tl ih =>
    obtain ⟨k3, v3⟩ := hd
    by_cases h3 : k3 = k2
    · subst h3
      simp [dinsert, dlookup, h]
    · by_cases h4 : k3 = k
      · simp [dinsert, dlookup, h3, h4, Ne.symm h]
      · simp [dinsert, dlookup, h3, h4, ih]

theorem dlookup_dremove_ne {α : Type} (k k2 : String) (l : List (String × α))
    (h : k2 ≠ k) : dlookup k (dremove k2 l) = dlookup k l := by
  induction l with
  | nil => simp [dremove, dlookup]
  | cons hd tl ih =>
    obtain ⟨k3, v3⟩ := hd
    by_cases h3 : k3 = k2
    · subst h3
      have : ¬ k3 = k := h
      simp [dremove, dlookup, this] at ih ⊢
      simpa [dremove] using ih
    · by_cases h4 : k3 = k
      · simp [dremove, dlookup, h3, h4, Ne.symm h]
      · simp [dremove, dlookup, h3, h4] at ih ⊢
        simpa [dremove] using ih

open StudentManager in
/-- C1 counterexample: updating stZhang with a valid new name listed before
an invalid age makes update_student raise DataValidationError, yet the
record kept in the map has the NEW name (the claim says every pre-call field
value, including fields listed before the failing one, is retained). -/
theorem c1_counterexample :
    update_student smZhang "100001" [("name", .jstr "Li Si"), ("age", .jint 10)]
      = ({ smZhang with students :=
             [("100001", ⟨"100001", "Li Si", "男", 20, "CS-1", "13800000000"⟩)] },
         .error (.dataValidation "age" "年龄必须是15-49之间的整数")) ∧
    stZhang.name = "Zhang San" ∧ smZhang.fs.saveCount = 0 :=
  ⟨rfl, rfl, rfl⟩

open StudentManager in
/-- C2: a successful import with overwrite=true returns the imported map and
rewrites the disk file, but the post-import reload merges into the existing
in-memory map without clearing it, so the stale record 100001 stays in
memory while loading the disk file yields only 100002. -/
theorem c2_import_reload_divergence :
    (manager_import smZhangImp "import.json" true).2 = .ok (.jobj [("100002", recLi)]) ∧
    (manager_import smZhangImp "import.json" true).1.students
      = [("100001", stZhang), ("100002", stLi)] ∧
    DataManager.load_data (manager_import smZhangImp "import.json" true).1.fs
      = .ok (.jobj [("100002", recLi)]) ∧
    load_students [] (manager_import smZhangImp "import.json" true).1.fs
      = .ok [("100002", stLi)] :=
  ⟨rfl, rfl, rfl, rfl⟩

open StudentManager in
/-- C3 counterexample: the id abc123 does not match the 6-20-digit rule of
the spec, yet delete_student fails with StudentNotFoundError, not with a
validation error, because the manager checks the weaker pattern of letters,
digits and underscores of length 3-20. -/
theorem c3_counterexample :
    specIdPattern "abc123" = false ∧
    manager_validate_student_id "abc123" = true ∧
    delete_student smEmpty "abc123" = (smEmpty, .error (.studentNotFound "abc123")) :=
  ⟨rfl, rfl, rfl⟩

/-- C4 counterexample: the backup file exists and is non-empty, so both
precondition checks on backupPath pass, yet restore fails with
EmptyDataError (raised by the automatic backup of the absent current data
file), not with BackupRestoreError. -/
theorem c4_counterexample :
    fsGet fsBackupOnly "backup.json" = some (.jsonFile (.jobj [])) ∧
    DataManager.restore_data fsBackupOnly "backup.json"
      = (fsBackupOnly, .error (.emptyData "没有数据文件可供备份")) :=
  ⟨rfl, rfl⟩

/-- C7 counterexample: passing the id field to Student.update_info after a
valid name update raises InvalidOperationError as claimed, but the name
field keeps its newly applied value, so not all other fields are unchanged
afterwards. -/
theorem c7_counterexample :
    Student.updateInfo stZhang [("name", .jstr "Li Si"), ("student_id", .jstr "100002")]
      = (⟨"100001", "Li Si", "男", 20, "CS-1", "13800000000"⟩,
         .error (.invalidOperation "学号不允许修改")) ∧
    stZhang.name = "Zhang San" :=
  ⟨rfl, rfl⟩

open StudentManager in
/-- C8 counterexample: a list in which the same deletable id occurs twice
makes the deletion loop hit a KeyError on the second occurrence; the call
raises OperationFailedError instead of returning a count, and the record
was removed from the map without any save call. -/
theorem c8_counterexample :
    dlookup "100001" smZhang.students = some stZhang ∧
    delete_students_by_ids smZhang ["100001", "100001"]
      = ({ smZhang with students := [] },
         .error (.operationFailed "批量删除学生失败: KeyError")) ∧
    smZhang.fs.saveCount = 0 :=
  ⟨rfl, rfl, rfl⟩

/-- C6: for every dataset map whose values satisfy the full record
validation of the Validator, save followed by load returns the very same
map (JSON serialization is modelled as lossless, and the store keeps the
whole map in one file). -/
theorem c6_save_load_roundtrip (fs : FileSys) (m : List (String × JValue))
    (hvalid : ∀ p ∈ m, (Validator.validate_student_data p.2).1 = true) :
    DataManager.load_data (DataManager.save_data fs m) = .ok (.jobj m) := by
  unfold DataManager.load_data DataManager.save_data fsGet
  simp [dlookup_dinsert_self]

/-- Witness for C6 at a concrete one-record valid dataset. -/
theorem c6_save_load_roundtrip_witness :
    DataManager.load_data (DataManager.save_data ⟨[], 0, 0⟩ [("100001", recZhang)])
      = .ok (.jobj [("100001", recZhang)]) :=
  c6_save_load_roundtrip ⟨[], 0, 0⟩ [("100001", recZhang)]
    (fun p hp => by rw [List.mem_singleton.mp hp]; rfl)

/-- C5: importing a file with keys B, C into a persisted dataset with keys
A, B merges when overwrite=false (B taking the imported value, order A, B,
C) and replaces when overwrite=true (exactly B, C); both calls return
the map as loaded from the import file, not the merged result. -/
theorem c5_import_merge_overwrite (fs : FileSys) (p A B C : String)
    (vA vB vB2 vC : JValue)
    (hp : p ≠ dataFilePath)
    (hdata : fsGet fs dataFilePath = some (.jsonFile (.jobj [(A, vA), (B, vB)])))
    (himp : fsGet fs p = some (.jsonFile (.jobj [(B, vB2), (C, vC)])))
    (hAB : A ≠ B) (hAC : A ≠ C) (hBC : B ≠ C) :
    (DataManager.data_import fs p false).2 = .ok (.jobj [(B, vB2), (C, vC)]) ∧
    fsGet (DataManager.data_import fs p false).1 dataFilePath
      = some (.jsonFile (.jobj [(A, vA), (B, vB2), (C, vC)])) ∧
    (DataManager.data_import fs p true).2 = .ok (.jobj [(B, vB2), (C, vC)]) ∧
    fsGet (DataManager.data_import fs p true).1 dataFilePath
      = some (.jsonFile (.jobj [(B, vB2), (C, vC)])) := by
  unfold DataManager.data_import
  rw [himp]
  unfold DataManager.load_data
  rw [hdata]
  refine ⟨rfl, ?_, rfl, ?_⟩
  · show fsGet (DataManager.save_data fs _) dataFilePath = _
    unfold DataManager.save_data fsGet
    rw [dlookup_dinsert_self]
    simp only [List.foldl]
    rw [show dinsert B vB2 [(A, vA), (B, vB)] = [(A, vA), (B, vB2)] by
          simp [dinsert, hAB]]
    rw [show dinsert C vC [(A, vA), (B, vB2)] = [(A, vA), (B, vB2), (C, vC)] by
          simp [dinsert, hAC, hBC]]
  · show fsGet (DataManager.save_data fs _) dataFilePath = _
    unfold DataManager.save_data fsGet
    simp [dlookup_dinsert_self]

/-- Witness for C5 on concrete files with A=100001, B=100002, C=100003. -/
theorem c5_import_merge_overwrite_witness :
    (DataManager.data_import
        ⟨[(dataFilePath, .jsonFile (.jobj [("100001", .jint 1), ("100002", .jint 2)])),
          ("in.json", .jsonFile (.jobj [("100002", .jint 5), ("100003", .jint 6)]))], 0, 0⟩
        "in.json" false).2
      = .ok (.jobj [("100002", .jint 5), ("100003", .jint 6)]) :=
  (c5_import_merge_overwrite
    ⟨[(dataFilePath, .jsonFile (.jobj [("100001", .jint 1), ("100002", .jint 2)])),
      ("in.json", .jsonFile (.jobj [("100002", .jint 5), ("100003", .jint 6)]))], 0, 0⟩
    "in.json" "100001" "100002" "100003" (.jint 1) (.jint 2) (.jint 5) (.jint 6)
    (by decide) rfl rfl (by decide) (by decide) (by decide)).1

/-- C10: the import of the Persistence Store validates nothing per record: any
JSON object is persisted verbatim by an overwrite import and returned, in
one save call, no matter what its values are; only a non-object top level
is rejected, with DataIOError. -/
theorem c10_import_no_validation (fs : FileSys) (p : String) (v : JValue)
    (hfile : fsGet fs p = some (.jsonFile v)) :
    (∀ pairs, v = .jobj pairs →
       (DataManager.data_import fs p true).2 = .ok (.jobj pairs) ∧
       fsGet (DataManager.data_import fs p true).1 dataFilePath
         = some (.jsonFile (.jobj pairs)) ∧
       (DataManager.data_import fs p true).1.saveCount = fs.saveCount + 1) ∧
    ((∀ pairs, v ≠ .jobj pairs) → ∀ ow,
       DataManager.data_import fs p ow
         = (fs, .error (.ioError "导入数据格式错误，必须是字典格式" p "导入"))) := by
  constructor
  · rintro pairs rfl
    unfold DataManager.data_import
    rw [hfile]
    refine ⟨rfl, ?_, rfl⟩
    unfold DataManager.save_data fsGet
    simp [dlookup_dinsert_self]
  · intro hne ow
    unfold DataManager.data_import
    rw [hfile]
    cases v with
    | jobj pairs => exact absurd rfl (hne pairs)
    | jnull => rfl
    | jbool b => rfl
    | jint n => rfl
    | jstr s => rfl
    | jarr l => rfl

/-- Witness for C10: a one-key object whose value violates every record
rule is imported and persisted verbatim, and an array top level is
rejected with DataIOError. -/
theorem c10_import_no_validation_witness :
    (DataManager.data_import ⟨[("in.json", .jsonFile (.jobj [("x", .jint 5)]))], 0, 0⟩
        "in.json" true).2 = .ok (.jobj [("x", .jint 5)]) ∧
    DataManager.data_import ⟨[("in.json", .jsonFile (.jarr []))], 0, 0⟩ "in.json" true
      = (⟨[("in.json", .jsonFile (.jarr []))], 0, 0⟩,
         .error (.ioError "导入数据格式错误，必须是字典格式" "in.json" "导入")) :=
  ⟨((c10_import_no_validation ⟨[("in.json", .jsonFile (.jobj [("x", .jint 5)]))], 0, 0⟩
      "in.json" (.jobj [("x", .jint 5)]) rfl).1 [("x", .jint 5)] rfl).1,
   (c10_import_no_validation ⟨[("in.json", .jsonFile (.jarr []))], 0, 0⟩
      "in.json" (.jarr []) rfl).2 (fun pairs h => JValue.noConfusion h) true⟩

/-- C4 (amended): restore raises EmptyDataError when backupPath is absent or
zero-length, and ALSO when the two backupPath checks pass but the automatic
backup of the current data file finds that file absent or zero-length (that
EmptyDataError is re-raised unwrapped); when both files exist and are
non-empty, the restore succeeds. -/
theorem c4_restore_errors (fs : FileSys) (p : String) :
    (fsGet fs p = none →
       DataManager.restore_data fs p
         = (fs, .error (.emptyData ("备份文件不存在: " ++ p)))) ∧
    (fsGet fs p = some .emptyFile →
       DataManager.restore_data fs p
         = (fs, .error (.emptyData ("备份文件为空: " ++ p)))) ∧
    (∀ c, fsGet fs p = some c → c ≠ .emptyFile →
       (fsGet fs dataFilePath = none →
          DataManager.restore_data fs p
            = (fs, .error (.emptyData "没有数据文件可供备份"))) ∧
       (fsGet fs dataFilePath = some .emptyFile →
          DataManager.restore_data fs p
            = (fs, .error (.emptyData "数据文件为空，无法备份"))) ∧
       (∀ d, fsGet fs dataFilePath = some d → d ≠ .emptyFile →
          (DataManager.restore_data fs p).2 = .ok true)) := by
  refine ⟨?_, ?_, ?_⟩
  · intro h
    unfold DataManager.restore_data
    rw [h]
  · intro h
    unfold DataManager.restore_data
    rw [h]
  · intro c hc hcne
    refine ⟨?_, ?_, ?_⟩
    · intro hd
      unfold DataManager.restore_data
      rw [hc]
      cases c with
      | emptyFile => exact absurd rfl hcne
      | jsonFile v =>
        unfold DataManager.backup_data
        rw [hd]
      | badFile s =>
        unfold DataManager.backup_data
        rw [hd]
    · intro hd
      unfold DataManager.restore_data
      rw [hc]
      cases c with
      | emptyFile => exact absurd rfl hcne
      | jsonFile v =>
        unfold DataManager.backup_data
        rw [hd]
      | badFile s =>
        unfold DataManager.backup_data
        rw [hd]
    · intro d hd hdne
      unfold DataManager.restore_data
      rw [hc]
      have hback : DataManager.backup_data fs
          = (⟨dinsert (DataManager.backupPathOf fs.clock) d fs.files, fs.saveCount,
              fs.clock + 1⟩, .ok (DataManager.backupPathOf fs.clock)) := by
        unfold DataManager.backup_data
        rw [hd]
        cases d with
        | emptyFile => exact absurd rfl hdne
        | jsonFile v => rfl
        | badFile s => rfl
      cases c with
      | emptyFile => exact absurd rfl hcne
      | jsonFile v =>
        rw [hback]
        by_cases hpb : p = DataManager.backupPathOf fs.clock
        · show (match fsGet _ p with
                | some c2 => (_, Except.ok true)
                | none => (_, Except.error _)).2 = Except.ok true
          unfold fsGet
          simp only
          rw [hpb, dlookup_dinsert_self]
        · show (match fsGet _ p with
                | some c2 => (_, Except.ok true)
                | none => (_, Except.error _)).2 = Except.ok true
          unfold fsGet
          simp only
          rw [dlookup_dinsert_ne _ _ _ _ (fun h => hpb h.symm)]
          unfold fsGet at hc
          rw [hc]
      | badFile s =>
        rw [hback]
        by_cases hpb : p = DataManager.backupPathOf fs.clock
        · show (match fsGet _ p with
                | some c2 => (_, Except.ok true)
                | none => (_, Except.error _)).2 = Except.ok true
          unfold fsGet
          simp only
          rw [hpb, dlookup_dinsert_self]
        · show (match fsGet _ p with
                | some c2 => (_, Except.ok true)
                | none => (_, Except.error _)).2 = Except.ok true
          unfold fsGet
          simp only
          rw [dlookup_dinsert_ne _ _ _ _ (fun h => hpb h.symm)]
          unfold fsGet at hc
          rw [hc]

/-- Witness for C4 on a file system holding a non-empty backup and a
non-empty data file. -/
theorem c4_restore_errors_witness :
    (DataManager.restore_data
        ⟨[("b.json", .jsonFile (.jobj [])), (dataFilePath, .jsonFile (.jobj []))], 0, 0⟩
        "b.json").2 = .ok true :=
  ((c4_restore_errors
      ⟨[("b.json", .jsonFile (.jobj [])), (dataFilePath, .jsonFile (.jobj []))], 0, 0⟩
      "b.json").2.2 (.jsonFile (.jobj [])) rfl (fun h => FileContent.noConfusion h)).2.2
    (.jsonFile (.jobj [])) rfl (fun h => FileContent.noConfusion h)

theorem mergeRecords_cons (acc : List (String × Student)) (k2 : String) (v2 : JValue)
    (tl : List (String × JValue)) :
    StudentManager.mergeRecords acc ((k2, v2) :: tl)
      = StudentManager.mergeRecords
          (match Student.fromDict v2 with
           | .ok st => dinsert k2 st acc
           | .error _ => acc) tl := rfl

theorem dlookup_mergeRecords_not_mem (k : String) (acc : List (String × Student))
    (data : List (String × JValue)) (h : k ∉ data.map Prod.fst) :
    dlookup k (StudentManager.mergeRecords acc data) = dlookup k acc := by
  induction data generalizing acc with
  | nil => rfl
  | cons hd tl ih =>
    obtain ⟨k2, v2⟩ := hd
    simp only [List.map_cons, List.mem_cons, not_or] at h
    rw [mergeRecords_cons]
    cases h2 : Student.fromDict v2 with
    | ok st =>
      simp only
      rw [ih _ h.2, dlookup_dinsert_ne _ _ _ _ (fun he => h.1 he.symm)]
    | error e =>
      simp only
      rw [ih _ h.2]

theorem dlookup_mergeRecords_ok (k : String) (v : JValue) (st : Student)
    (acc : List (String × Student)) (data : List (String × JValue))
    (hnodup : (data.map Prod.fst).Nodup) (hmem : (k, v) ∈ data)
    (hok : Student.fromDict v = .ok st) :
    dlookup k (StudentManager.mergeRecords acc data) = some st := by
  induction data generalizing acc with
  | nil => cases hmem
  | cons hd tl ih =>
    obtain ⟨k2, v2⟩ := hd
    simp only [List.map_cons, List.nodup_cons] at hnodup
    rw [mergeRecords_cons]
    rcases List.mem_cons.mp hmem with heq | htl
    · obtain ⟨rfl, rfl⟩ := Prod.mk.injEq .. ▸ heq
      rw [hok]
      simp only
      rw [dlookup_mergeRecords_not_mem _ _ _ hnodup.1, dlookup_dinsert_self]
    · have hk2 : k ≠ k2 := by
        intro he
        exact hnodup.1 (he ▸ (List.mem_map_of_mem Prod.fst htl))
      cases h2 : Student.fromDict v2 with
      | ok st2 =>
        simp only
        exact ih _ hnodup.2 htl
      | error e =>
        simp only
        exact ih _ hnodup.2 htl

theorem dlookup_mergeRecords_err (k : String) (v : JValue) (e : SMError)
    (acc : List (String × Student)) (data : List (String × JValue))
    (hnodup : (data.map Prod.fst).Nodup) (hmem : (k, v) ∈ data)
    (herr : Student.fromDict v = .error e) :
    dlookup k (StudentManager.mergeRecords acc data) = dlookup k acc := by
  induction data generalizing acc with
  | nil => cases hmem
  | cons hd tl ih =>
    obtain ⟨k2, v2⟩ := hd
    simp only [List.map_cons, List.nodup_cons] at hnodup
    rw [mergeRecords_cons]
    rcases List.mem_cons.mp hmem with heq | htl
    · obtain ⟨rfl, rfl⟩ := Prod.mk.injEq .. ▸ heq
      rw [herr]
      simp only
      rw [dlookup_mergeRecords_not_mem _ _ _ hnodup.1]
    · have hk2 : k ≠ k2 := by
        intro he
        exact hnodup.1 (he ▸ (List.mem_map_of_mem Prod.fst htl))
      cases h2 : Student.fromDict v2 with
      | ok st2 =>
        simp only
        rw [ih _ hnodup.2 htl, dlookup_dinsert_ne _ _ _ _ (fun he => hk2 he.symm)]
      | error e2 =>
        simp only
        exact ih _ hnodup.2 htl

theorem dinsert_length_le {α : Type} (k : String) (v : α) (l : List (String × α)) :
    (dinsert k v l).length ≤ l.length + 1 := by
  induction l with
  | nil => simp [dinsert]
  | cons hd tl ih =>
    obtain ⟨k2, v2⟩ := hd
    by_cases h : k2 = k
    · simp [dinsert, h]
    · simp only [dinsert, h, if_false, List.length_cons]
      omega

theorem mergeRecords_length_le (acc : List (String × Student))
    (data : List (String × JValue)) :
    (StudentManager.mergeRecords acc data).length ≤ acc.length + data.length := by
  induction data generalizing acc with
  | nil => simp [StudentManager.mergeRecords]
  | cons hd tl ih =>
    obtain ⟨k2, v2⟩ := hd
    rw [mergeRecords_cons]
    cases h2 : Student.fromDict v2 with
    | ok st =>
      simp only [List.length_cons]
      calc (StudentManager.mergeRecords (dinsert k2 st acc) tl).length
          ≤ (dinsert k2 st acc).length + tl.length := ih _
        _ ≤ (acc.length + 1) + tl.length := by
            have := dinsert_length_le k2 st acc
            omega
        _ = acc.length + (tl.length + 1) := by omega
    | error e =>
      simp only [List.length_cons]
      calc (StudentManager.mergeRecords acc tl).length
          ≤ acc.length + tl.length := ih _
        _ ≤ acc.length + (tl.length + 1) := by omega

open StudentManager in
/-- C9: loading at startup (the constructor starts from an empty map) never
raises because of an individually invalid record: the result is exactly the
merge that inserts each record accepted by full construction validation and
silently skips each rejected one, so a rejected record is absent from the
startup map and the map can be strictly smaller than the on-disk dataset. -/
theorem c9_load_skips_invalid (fs : FileSys) (data : List (String × JValue))
    (hnodup : (data.map Prod.fst).Nodup)
    (hfile : fsGet fs dataFilePath = some (.jsonFile (.jobj data))) :
    load_students [] fs = .ok (mergeRecords [] data) ∧
    (∀ k v st, (k, v) ∈ data → Student.fromDict v = .ok st →
       dlookup k (mergeRecords [] data) = some st) ∧
    (∀ k v e, (k, v) ∈ data → Student.fromDict v = .error e →
       dlookup k (mergeRecords [] data) = none) ∧
    (mergeRecords [] data).length ≤ data.length := by
  refine ⟨?_, ?_, ?_, ?_⟩
  · unfold load_students DataManager.load_data
    rw [hfile]
  · intro k v st hmem hok
    exact dlookup_mergeRecords_ok k v st [] data hnodup hmem hok
  · intro k v e hmem herr
    rw [dlookup_mergeRecords_err k v e [] data hnodup hmem herr]
    rfl
  · have := mergeRecords_length_le [] data
    simpa using this

open StudentManager in
/-- Witness for C9 on a two-record disk file whose second record is invalid:
the load succeeds, keeps the valid record, drops the invalid one, and the
resulting startup map is the strict subset of one record. -/
theorem c9_load_skips_invalid_witness :
    load_students [] fsMixed = .ok (mergeRecords [] dataMixed) ∧
    dlookup "100001" (mergeRecords [] dataMixed) = some stZhang ∧
    dlookup "bad" (mergeRecords [] dataMixed) = none ∧
    mergeRecords [] dataMixed = [("100001", stZhang)] :=
  ⟨(c9_load_skips_invalid fsMixed dataMixed (by decide) rfl).1,
   (c9_load_skips_invalid fsMixed dataMixed (by decide) rfl).2.1 "100001" recZhang stZhang
     (List.mem_cons_self _ _) rfl,
   (c9_load_skips_invalid fsMixed dataMixed (by decide) rfl).2.2.1 "bad" (.jobj [])
     (.dataValidation "student_id" "学号必须是字符串类型")
     (List.mem_cons_of_mem _ (List.mem_cons_self _ _)) rfl,
   rfl⟩

theorem except_map_ok {α β γ : Type} (f : β → γ) (x : Except α β) (y : γ)
    (h : x.map f = .ok y) : ∃ a, x = .ok a ∧ y = f a := by
  cases x with
  | ok a =>
    injection h with h1
    exact ⟨a, rfl, h1.symm⟩
  | error e => exact Except.noConfusion h

theorem setField_student_id (st : Student) (f : String) (v : JValue) (st2 : Student)
    (h : Student.setField st f v = .ok st2) : st2.student_id = st.student_id := by
  unfold Student.setField at h
  split_ifs at h
  · obtain ⟨a, hx, rfl⟩ := except_map_ok _ _ _ h
    rfl
  · obtain ⟨a, hx, rfl⟩ := except_map_ok _ _ _ h
    rfl
  · obtain ⟨a, hx, rfl⟩ := except_map_ok _ _ _ h
    rfl
  · obtain ⟨a, hx, rfl⟩ := except_map_ok _ _ _ h
    rfl
  · obtain ⟨a, hx, rfl⟩ := except_map_ok _ _ _ h
    rfl

theorem updateInfoAux_cons (st : Student) (b : Bool) (key : String) (value : JValue)
    (rest : List (String × JValue)) :
    Student.updateInfoAux st b ((key, value) :: rest)
      = if key = "student_id" then (st, .error (.invalidOperation "学号不允许修改"))
        else if Student.allowedFields.contains key then
          match value with
          | .jnull => Student.updateInfoAux st b rest
          | v =>
            match Student.setField st key v with
            | .ok st2 => Student.updateInfoAux st2 true rest
            | .error e => (st, .error e)
        else (st, .error (.dataValidation key ("不允许更新字段: " ++ key))) := rfl

theorem updateInfoAux_student_id (l : List (String × JValue)) (st : Student) (b : Bool) :
    (Student.updateInfoAux st b l).1.student_id = st.student_id := by
  induction l generalizing st b with
  | nil => rfl
  | cons hd tl ih =>
    obtain ⟨key, value⟩ := hd
    rw [updateInfoAux_cons]
    by_cases h1 : key = "student_id"
    · rw [if_pos h1]
    · rw [if_neg h1]
      by_cases h2 : Student.allowedFields.contains key = true
      · rw [if_pos h2]
        cases value with
        | jnull => exact ih st b
        | jbool x =>
          cases hs : Student.setField st key (.jbool x) with
          | ok st2 =>
            simp only [hs]
            rw [ih st2 true]
            exact setField_student_id st key _ st2 hs
          | error e => simp only [hs]
        | jint x =>
          cases hs : Student.setField st key (.jint x) with
          | ok st2 =>
            simp only [hs]
            rw [ih st2 true]
            exact setField_student_id st key _ st2 hs
          | error e => simp only [hs]
        | jstr x =>
          cases hs : Student.setField st key (.jstr x) with
          | ok st2 =>
            simp only [hs]
            rw [ih st2 true]
            exact setField_student_id st key _ st2 hs
          | error e => simp only [hs]
        | jarr x =>
          cases hs : Student.setField st key (.jarr x) with
          | ok st2 =>
            simp only [hs]
            rw [ih st2 true]
            exact setField_student_id st key _ st2 hs
          | error e => simp only [hs]
        | jobj x =>
          cases hs : Student.setField st key (.jobj x) with
          | ok st2 =>
            simp only [hs]
            rw [ih st2 true]
            exact setField_student_id st key _ st2 hs
          | error e => simp only [hs]
      · rw [if_neg h2]

theorem updateInfoAux_append (l1 l2 : List (String × JValue)) (st st1 : Student)
    (b b1 : Bool) (h : Student.updateInfoAux st b l1 = (st1, .ok b1)) :
    Student.updateInfoAux st b (l1 ++ l2) = Student.updateInfoAux st1 b1 l2 := by
  induction l1 generalizing st b with
  | nil =>
    simp only [Student.updateInfoAux, Prod.mk.injEq, Except.ok.injEq] at h
    obtain ⟨rfl, rfl⟩ := h
    rfl
  | cons hd tl ih =>
    obtain ⟨key, value⟩ := hd
    rw [updateInfoAux_cons] at h
    rw [List.cons_append, updateInfoAux_cons]
    by_cases h1 : key = "student_id"
    · rw [if_pos h1] at h
      simp at h
    · rw [if_neg h1] at h ⊢
      by_cases h2 : Student.allowedFields.contains key = true
      · rw [if_pos h2] at h ⊢
        cases value with
        | jnull => exact ih _ _ h
        | jbool x =>
          cases hs : Student.setField st key (.jbool x) with
          | ok st2 =>
            simp only [hs] at h ⊢
            exact ih _ _ h
          | error e =>
            simp only [hs] at h
            simp at h
        | jint x =>
          cases hs : Student.setField st key (.jint x) with
          | ok st2 =>
            simp only [hs] at h ⊢
            exact ih _ _ h
          | error e =>
            simp only [hs] at h
            simp at h
        | jstr x =>
          cases hs : Student.setField st key (.jstr x) with
          | ok st2 =>
            simp only [hs] at h ⊢
            exact ih _ _ h
          | error e =>
            simp only [hs] at h
            simp at h
        | jarr x =>
          cases hs : Student.setField st key (.jarr x) with
          | ok st2 =>
            simp only [hs] at h ⊢
            exact ih _ _ h
          | error e =>
            simp only [hs] at h
            simp at h
        | jobj x =>
          cases hs : Student.setField st key (.jobj x) with
          | ok st2 =>
            simp only [hs] at h ⊢
            exact ih _ _ h
          | error e =>
            simp only [hs] at h
            simp at h
      · rw [if_neg h2] at h
        simp at h

open StudentManager in
/-- C7 (amended): no execution of Student.update_info ever changes the id;
when the id field is passed and every pair listed before it applies
cleanly, the call fails with InvalidOperationError, but the record keeps
the new values those earlier pairs installed (it is returned in exactly
that partially updated state); and the update of the Record Manager cannot be
handed the id field at all - Python rejects the call with a TypeError about
a duplicate student_id argument and the manager state is untouched. -/
theorem c7_id_immutable :
    (∀ (st : Student) (kwargs : List (String × JValue)),
       (Student.updateInfo st kwargs).1.student_id = st.student_id) ∧
    (∀ (st st1 : Student) (b : Bool) (pre post : List (String × JValue)) (v : JValue),
       Student.updateInfoAux st false pre = (st1, .ok b) →
       Student.updateInfo st (pre ++ ("student_id", v) :: post)
         = (st1, .error (.invalidOperation "学号不允许修改"))) ∧
    (∀ (sm : SMState) (sid : String) (kwargs : List (String × JValue)) (v : JValue),
       ("student_id", v) ∈ kwargs →
       update_student sm sid kwargs
         = (sm, .error (.typeError
             "update_student got multiple values for argument student_id"))) := by
  refine ⟨?_, ?_, ?_⟩
  · intro st kwargs
    exact updateInfoAux_student_id kwargs st false
  · intro st st1 b pre post v h
    unfold Student.updateInfo
    rw [updateInfoAux_append pre (("student_id", v) :: post) st st1 false b h]
    rw [updateInfoAux_cons]
    rw [if_pos rfl]
  · intro sm sid kwargs v hmem
    have hc : (kwargs.map Prod.fst).contains "student_id" = true := by
      have hm : "student_id" ∈ kwargs.map Prod.fst := List.mem_map_of_mem Prod.fst hmem
      exact List.elem_iff.mpr hm
    unfold update_student
    rw [if_pos hc]

open StudentManager in
/-- Witness for C7: a name update listed before the id field is kept, the
error is InvalidOperationError, and the manager call with the id field in
kwargs is a TypeError. -/
theorem c7_id_immutable_witness :
    (Student.updateInfo stZhang [("name", .jstr "Wang Wu"), ("gender", .jstr "男")]).1.student_id
      = stZhang.student_id ∧
    Student.updateInfo stZhang [("name", .jstr "Li Si"), ("student_id", .jstr "100009")]
      = (⟨"100001", "Li Si", "男", 20, "CS-1", "13800000000"⟩,
         .error (.invalidOperation "学号不允许修改")) ∧
    update_student smZhang "100001" [("student_id", .jstr "100009")]
      = (smZhang, .error (.typeError
          "update_student got multiple values for argument student_id")) :=
  ⟨c7_id_immutable.1 stZhang [("name", .jstr "Wang Wu"), ("gender", .jstr "男")],
   c7_id_immutable.2.1 stZhang ⟨"100001", "Li Si", "男", 20, "CS-1", "13800000000"⟩
     true [("name", .jstr "Li Si")] [] (.jstr "100009") rfl,
   c7_id_immutable.2.2 smZhang "100001" [("student_id", .jstr "100009")] (.jstr "100009")
     (List.mem_singleton.mpr rfl)⟩

open StudentManager in
/-- C1 (amended): when an update on an existing record reaches a recognized
field whose new value fails its validator, the whole operation raises that
DataValidationError and nothing is saved to disk (the file system is
untouched), but the map is not left with the pre-call record: it holds the
record with the new values of the fields listed BEFORE the failing field
already applied; the failing field and later fields keep their old
values. -/
theorem c1_update_partial_commit
    (sm : StudentManager.SMState) (sid : String) (st st1 : Student) (b : Bool)
    (kw1 kw2 : List (String × JValue)) (f : String) (v : JValue)
    (fld msg : String)
    (hguard : ((kw1 ++ (f, v) :: kw2).map Prod.fst).contains "student_id" = false)
    (hvalid : manager_validate_student_id sid = true)
    (hfound : dlookup sid sm.students = some st)
    (hpre : pre_check (kw1 ++ (f, v) :: kw2) = .ok ())
    (happly : Student.updateInfoAux st false kw1 = (st1, .ok b))
    (hf1 : f ≠ "student_id")
    (hf2 : Student.allowedFields.contains f = true)
    (hv : v ≠ .jnull)
    (hfail : Student.setField st1 f v = .error (.dataValidation fld msg)) :
    update_student sm sid (kw1 ++ (f, v) :: kw2)
      = (⟨dinsert sid st1 sm.students, sm.fs⟩, .error (.dataValidation fld msg)) := by
  have hget : get_student_by_id sm sid = .ok st := by
    unfold get_student_by_id
    rw [if_neg (not_not_intro hvalid), hfound]
  have hui : Student.updateInfo st (kw1 ++ (f, v) :: kw2)
      = (st1, .error (.dataValidation fld msg)) := by
    unfold Student.updateInfo
    rw [updateInfoAux_append kw1 ((f, v) :: kw2) st st1 false b happly]
    rw [updateInfoAux_cons, if_neg hf1, if_pos hf2]
    cases v with
    | jnull => exact absurd rfl hv
    | jbool x =>
      show (match st1.setField f (.jbool x) with
            | Except.ok st2 => Student.updateInfoAux st2 true kw2
            | Except.error e => (st1, Except.error e)) = _
      rw [hfail]
    | jint x =>
      show (match st1.setField f (.jint x) with
            | Except.ok st2 => Student.updateInfoAux st2 true kw2
            | Except.error e => (st1, Except.error e)) = _
      rw [hfail]
    | jstr x =>
      show (match st1.setField f (.jstr x) with
            | Except.ok st2 => Student.updateInfoAux st2 true kw2
            | Except.error e => (st1, Except.error e)) = _
      rw [hfail]
    | jarr x =>
      show (match st1.setField f (.jarr x) with
            | Except.ok st2 => Student.updateInfoAux st2 true kw2
            | Except.error e => (st1, Except.error e)) = _
      rw [hfail]
    | jobj x =>
      show (match st1.setField f (.jobj x) with
            | Except.ok st2 => Student.updateInfoAux st2 true kw2
            | Except.error e => (st1, Except.error e)) = _
      rw [hfail]
  unfold update_student
  rw [if_neg (by rw [hguard]; exact Bool.false_ne_true), if_neg (not_not_intro hvalid), hget, hpre]
  simp only [hui]
  rfl

open StudentManager in
/-- Witness for C1 at a concrete state: a valid name followed by an invalid
age leaves the renamed record in the map, the file system untouched, and
the DataValidationError raised. -/
theorem c1_update_partial_commit_witness :
    update_student smZhang "100001" [("name", .jstr "Li Si"), ("age", .jint 10)]
      = (⟨dinsert "100001" (⟨"100001", "Li Si", "男", 20, "CS-1", "13800000000"⟩ : Student)
            smZhang.students, smZhang.fs⟩,
         .error (.dataValidation "age" "年龄必须是15-49之间的整数")) :=
  c1_update_partial_commit smZhang "100001" stZhang
    ⟨"100001", "Li Si", "男", 20, "CS-1", "13800000000"⟩ true
    [("name", .jstr "Li Si")] [] "age" (.jint 10) "age" "年龄必须是15-49之间的整数"
    rfl rfl rfl rfl rfl (by decide) rfl (fun h => JValue.noConfusion h) rfl

theorem delete_loop_success (dl : List String) (students : List (String × Student))
    (hnd : dl.Nodup) (hpres : ∀ i ∈ dl, (dlookup i students).isSome = true) :
    StudentManager.delete_loop students dl
      = (dl.foldl (fun acc i => dremove i acc) students, true) := by
  induction dl generalizing students with
  | nil => rfl
  | cons i rest ih =>
    obtain ⟨st, hst⟩ := Option.isSome_iff_exists.mp (hpres i (List.mem_cons_self i rest))
    unfold StudentManager.delete_loop
    rw [hst]
    simp only [List.foldl_cons]
    exact ih (dremove i students) (List.nodup_cons.mp hnd).2 (fun j hj => by
      rw [dlookup_dremove_ne j i students
        (fun he => (List.nodup_cons.mp hnd).1 (by rw [he]; exact hj))]
      exact hpres j (List.mem_cons_of_mem i hj))

open StudentManager in
/-- C8 (amended): for an input list whose deletable occurrences (ids passing
the manager format check and present in the map) are pairwise distinct:
when none is deletable, the call returns (0, message) without touching the
state and without saving; otherwise exactly the deletable ids are removed,
one save call persists the result, and the returned count is the number of
deletable occurrences.  (When a deletable id occurs twice the deletion loop
raises instead; see the counterexample.) -/
theorem c8_batch_delete (sm : StudentManager.SMState) (ids : List String)
    (hnodup : (ids.filter (fun i => manager_validate_student_id i &&
        (dlookup i sm.students).isSome)).Nodup) :
    (ids.filter (fun i => manager_validate_student_id i &&
        (dlookup i sm.students).isSome) = [] →
       delete_students_by_ids sm ids = (sm, .ok (0, "没有找到可删除的学生"))) ∧
    (∀ dl, ids.filter (fun i => manager_validate_student_id i &&
        (dlookup i sm.students).isSome) = dl → dl ≠ [] →
       delete_students_by_ids sm ids
         = (save_students ⟨dl.foldl (fun acc i => dremove i acc) sm.students, sm.fs⟩,
            .ok (dl.length,
              batchMessage dl.length
                (ids.filter (fun i => manager_validate_student_id i &&
                  (dlookup i sm.students).isNone))
                (ids.filter (fun i => ¬ manager_validate_student_id i)))) ∧
       (delete_students_by_ids sm ids).1.fs.saveCount = sm.fs.saveCount + 1) := by
  constructor
  · intro h
    unfold delete_students_by_ids
    rw [h]
    rfl
  · intro dl hdl hne
    have hpres : ∀ i ∈ dl, (dlookup i sm.students).isSome = true := by
      intro i hi
      rw [← hdl] at hi
      have h2 := (List.mem_filter.mp hi).2
      simp only [Bool.and_eq_true] at h2
      exact h2.2
    have hnd : dl.Nodup := hdl ▸ hnodup
    have hloop := delete_loop_success dl sm.students hnd hpres
    have hmain : delete_students_by_ids sm ids
        = (save_students ⟨dl.foldl (fun acc i => dremove i acc) sm.students, sm.fs⟩,
           .ok (dl.length,
             batchMessage dl.length
               (ids.filter (fun i => manager_validate_student_id i &&
                 (dlookup i sm.students).isNone))
               (ids.filter (fun i => ¬ manager_validate_student_id i)))) := by
      unfold delete_students_by_ids
      rw [hdl]
      rw [if_neg (fun hlen => hne (List.length_eq_zero.mp hlen))]
      rw [hloop]
    exact ⟨hmain, by rw [hmain]; rfl⟩

open StudentManager in
/-- Witness for C8: deleting the single id 100001 from smZhang removes it,
returns count 1, and performs exactly one save; deleting only an unknown id
returns (0, message) with the state unchanged. -/
theorem c8_batch_delete_witness :
    delete_students_by_ids smZhang ["100001"]
      = (save_students ⟨[], smZhang.fs⟩,
         .ok (1, batchMessage 1 [] [])) ∧
    delete_students_by_ids smZhang ["999999"]
      = (smZhang, .ok (0, "没有找到可删除的学生")) := by
  constructor
  · have h := (c8_batch_delete smZhang ["100001"] (by decide)).2 ["100001"] rfl
      (by decide)
    exact h.1
  · exact (c8_batch_delete smZhang ["999999"] (by decide)).1 rfl

theorem validate_student_id_jstr (s : String) :
    Validator.validate_student_id (.jstr s)
      = if pyStrip s = "" then (false, "学号不能为空")
        else if s.length < 6 ∨ 20 < s.length then (false, "学号长度必须在6-20位之间")
        else if matchesFullPy (fun t => t != "" && t.toList.all asciiDigit) s then (true, "")
        else (false, "学号格式不正确，应为数字且长度在6-20位之间") := rfl

theorem validate_student_id_accepts (s : String)
    (h : (Validator.validate_student_id (.jstr s)).1 = true) : specIdAccept s = true := by
  rw [validate_student_id_jstr] at h
  split_ifs at h with h1 h2 h3
  simp only [specIdAccept, Bool.and_eq_true, decide_eq_true_eq]
  push_neg at h2
  exact ⟨⟨by omega, by omega⟩, h3⟩

open StudentManager in
/-- C3 (amended): the Validator id rule accepts exactly the strings of whole
length 6-20 whose content is a digit run, optionally followed by one final
newline (a Python regex `$` artifact, witnessed by 12345 plus newline which
the spec regex rejects); Student construction fails with a
DataValidationError on student_id for every other string, whatever the
remaining fields are.  The Record-Manager operations check the weaker
manager pattern instead: ids failing it make add, update and delete fail
with DataValidationError, getById with StudentNotFoundError, and
batchDelete classify the id as invalid and return (0, message), all leaving
the state unchanged; an id passing the manager pattern but not the
spec rule and absent from the map makes delete fail with
StudentNotFoundError, not with a validation error. -/
theorem c3_id_validation :
    (specIdAccept "12345\n" = true ∧ specIdPattern "12345\n" = false ∧
       (Validator.validate_student_id (.jstr "12345\n")).1 = true) ∧
    (∀ (s : String) (nm g ag cls ct : JValue), specIdAccept s = false →
       ∃ m, Student.mkStudent (.jstr s) nm g ag cls ct
         = .error (.dataValidation "student_id" m)) ∧
    (∀ (sm : StudentManager.SMState) (sid : String),
       manager_validate_student_id sid = false →
       delete_student sm sid
         = (sm, .error (.dataValidation "" "学号格式不正确，无法执行删除操作")) ∧
       get_student_by_id sm sid = .error (.studentNotFound sid) ∧
       (∀ nm g ag cls ct, add_student sm sid nm g ag cls ct
          = (sm, .error (.dataValidation ""
              "学号格式不正确，应为字母、数字和下划线组合，长度3-20个字符"))) ∧
       (∀ kwargs, (kwargs.map Prod.fst).contains "student_id" = false →
          update_student sm sid kwargs
            = (sm, .error (.dataValidation "" "学号格式不正确"))) ∧
       delete_students_by_ids sm [sid] = (sm, .ok (0, "没有找到可删除的学生"))) ∧
    (∀ (sm : StudentManager.SMState) (sid : String), specIdPattern sid = false →
       manager_validate_student_id sid = true → dlookup sid sm.students = none →
       delete_student sm sid = (sm, .error (.studentNotFound sid))) := by
  refine ⟨⟨rfl, rfl, rfl⟩, ?_, ?_, ?_⟩
  · intro s nm g ag cls ct hna
    have hfalse : (Validator.validate_student_id (.jstr s)).1 = false := by
      cases hb : (Validator.validate_student_id (.jstr s)).1 with
      | true => exact absurd (validate_student_id_accepts s hb) (by simp [hna])
      | false => rfl
    have hpair : Validator.validate_student_id (.jstr s)
        = (false, (Validator.validate_student_id (.jstr s)).2) := by
      rw [← hfalse]
    refine ⟨(Validator.validate_student_id (.jstr s)).2, ?_⟩
    have hsval : Student.sValidateStudentId (.jstr s)
        = .error (.dataValidation "student_id" (Validator.validate_student_id (.jstr s)).2) := by
      show (match Validator.validate_student_id (.jstr s) with
            | (true, _) => Except.ok s
            | (false, m) => Except.error (SMError.dataValidation "student_id" m))
          = _
      rw [hpair]
    unfold Student.mkStudent
    rw [hsval]
    rfl
  · intro sm sid hm
    refine ⟨?_, ?_, ?_, ?_, ?_⟩
    · unfold delete_student
      rw [if_pos (by simp [hm])]
    · unfold get_student_by_id
      rw [if_pos (by simp [hm])]
    · intro nm g ag cls ct
      unfold add_student
      rw [if_pos (by simp [hm])]
    · intro kwargs hkw
      unfold update_student
      rw [if_neg (by rw [hkw]; exact Bool.false_ne_true), if_pos (by simp [hm])]
    · have hfil : [sid].filter (fun i => manager_validate_student_id i &&
          (dlookup i sm.students).isSome) = [] := by
        simp [List.filter, hm]
      unfold delete_students_by_ids
      rw [hfil]
      rfl
  · intro sm sid hspec hm habsent
    unfold delete_student
    rw [if_neg (not_not_intro hm), habsent]

open StudentManager in
/-- Witness for C3: the short id 12345 is rejected by construction; the id
ab fails the manager pattern and delete reports a validation error; the id
abc123 passes the manager pattern, fails the spec rule, and delete on the
empty manager reports StudentNotFoundError. -/
theorem c3_id_validation_witness :
    (∃ m, Student.mkStudent (.jstr "12345") (.jstr "Li Si") (.jstr "男") (.jint 20)
        (.jstr "CS-1") (.jstr "13800000000") = .error (.dataValidation "student_id" m)) ∧
    delete_student smEmpty "ab"
      = (smEmpty, .error (.dataValidation "" "学号格式不正确，无法执行删除操作")) ∧
    delete_student smEmpty "abc123" = (smEmpty, .error (.studentNotFound "abc123")) :=
  ⟨c3_id_validation.2.1 "12345" (.jstr "Li Si") (.jstr "男") (.jint 20) (.jstr "CS-1")
     (.jstr "13800000000") rfl,
   (c3_id_validation.2.2.1 smEmpty "ab" rfl).1,
   c3_id_validation.2.2.2 smEmpty "abc123" rfl rfl rfl⟩
